import Mathlib

/-!
Verification of the `sod-log` crate (`src/lib.rs`): four passthrough
logging adapters that implement the `sod::Service` contract, each holding
an immutable configuration (a log level and a prefix string), logging a
rendering of the input via the `log` facade, and returning the input
unchanged.

Embedding notes.  Rust `log::Level` becomes the inductive `Level`.
Each adapter struct becomes a Lean structure with fields `level` and
`pfx` (the Rust field is named after the prepended text; that word is a
reserved keyword in Lean, so the field is `pfx` here).  The Rust trait
bounds `T: Debug` and `T: Display` become the classes `RustDebug` and
`RustDisplay`, providing the rendering function the `format!`-style
macro invokes (`{:?}` resp. `{}`).  The side effect of `log::log!` is
made explicit: `process` returns the Rust `Result` (as `Except Unit T`,
since the associated `Error` type is `()`) together with the list of
records emitted during the call, in order.  `process` takes `&self`
(a shared, immutable borrow) in Rust, so it is embedded as a pure
function of the configuration and the input.
-/

/-- `log::Level` from the `log` crate: the five severities. -/
inductive Level : Type where
  | Trace : Level
  | Debug : Level
  | Info : Level
  | Warn : Level
  | Error : Level
deriving DecidableEq, Repr

/-- One record handed to the logging facade by `log::log!`: the severity
and the fully assembled message string. -/
structure LogRecord : Type where
  level : Level
  message : String
deriving DecidableEq, Repr

/-- Rust's `Debug` trait, as the structural rendering `{:?}` uses. -/
class RustDebug (T : Type) : Type where
  fmtDebug : T → String

/-- Rust's `Display` trait, as the human-readable rendering `{}` uses. -/
class RustDisplay (T : Type) : Type where
  fmtDisplay : T → String

/-- `i32` implements `Debug`; `{:?}` on an integer prints its decimal
digits (with a leading `-` when negative), exactly as `toString`. -/
instance : RustDebug Int := ⟨fun n => toString n⟩

/-- `&str` implements `Display`; `{}` on a string prints it verbatim. -/
instance : RustDisplay String := ⟨fun s => s⟩

/-- `struct LogDebugService` (src/lib.rs:28-31): a log level and a
prefix string (`Cow<'a, str>`; ownership is irrelevant to behavior). -/
structure LogDebugService : Type where
  level : Level
  pfx : String
deriving DecidableEq, Repr

namespace LogDebugService

/-- `LogDebugService::new` (src/lib.rs:37-42). -/
def new (level : Level) (p : String) : LogDebugService :=
  { level := level, pfx := p }

/-- `LogDebugService::debug` (src/lib.rs:46-48). -/
def debug (p : String) : LogDebugService :=
  new Level.Debug p

/-- `LogDebugService::error` (src/lib.rs:52-54). -/
def error (p : String) : LogDebugService :=
  new Level.Error p

/-- `LogDebugService::info` (src/lib.rs:58-60). -/
def info (p : String) : LogDebugService :=
  new Level.Info p

/-- `LogDebugService::trace` (src/lib.rs:64-66). -/
def trace (p : String) : LogDebugService :=
  new Level.Trace p

/-- `LogDebugService::warn` (src/lib.rs:70-72). -/
def warn (p : String) : LogDebugService :=
  new Level.Warn p

/-- `Service<T> for LogDebugService` (src/lib.rs:74-81):
`log::log!(self.level, "{}{:?}", self.prefix, input); Ok(input)`.
The returned pair is the Rust result and the emitted records. -/
def process {T : Type} [RustDebug T] (s : LogDebugService) (input : T) :
    Except Unit T × List LogRecord :=
  (Except.ok input, [⟨s.level, s.pfx ++ RustDebug.fmtDebug input⟩])

end LogDebugService

/-- `struct LogOptionalDebugService` (src/lib.rs:86-89). -/
structure LogOptionalDebugService : Type where
  level : Level
  pfx : String
deriving DecidableEq, Repr

namespace LogOptionalDebugService

/-- `LogOptionalDebugService::new` (src/lib.rs:95-100). -/
def new (level : Level) (p : String) : LogOptionalDebugService :=
  { level := level, pfx := p }

/-- `LogOptionalDebugService::debug` (src/lib.rs:104-106). -/
def debug (p : String) : LogOptionalDebugService :=
  new Level.Debug p

/-- `LogOptionalDebugService::error` (src/lib.rs:110-112). -/
def error (p : String) : LogOptionalDebugService :=
  new Level.Error p

/-- `LogOptionalDebugService::info` (src/lib.rs:116-118). -/
def info (p : String) : LogOptionalDebugService :=
  new Level.Info p

/-- `LogOptionalDebugService::trace` (src/lib.rs:122-124). -/
def trace (p : String) : LogOptionalDebugService :=
  new Level.Trace p

/-- `LogOptionalDebugService::warn` (src/lib.rs:128-130). -/
def warn (p : String) : LogOptionalDebugService :=
  new Level.Warn p

/-- `Service<Option<T>> for LogOptionalDebugService` (src/lib.rs:132-141):
logs only when the input is `Some`, then `Ok(input)`. -/
def process {T : Type} [RustDebug T] (s : LogOptionalDebugService)
    (input : Option T) : Except Unit (Option T) × List LogRecord :=
  match input with
  | some x => (Except.ok (some x), [⟨s.level, s.pfx ++ RustDebug.fmtDebug x⟩])
  | none => (Except.ok none, [])

end LogOptionalDebugService

/-- `struct LogDisplayService` (src/lib.rs:146-149). -/
structure LogDisplayService : Type where
  level : Level
  pfx : String
deriving DecidableEq, Repr

namespace LogDisplayService

/-- `LogDisplayService::new` (src/lib.rs:155-160). -/
def new (level : Level) (p : String) : LogDisplayService :=
  { level := level, pfx := p }

/-- `LogDisplayService::debug` (src/lib.rs:164-166). -/
def debug (p : String) : LogDisplayService :=
  new Level.Debug p

/-- `LogDisplayService::error` (src/lib.rs:170-172). -/
def error (p : String) : LogDisplayService :=
  new Level.Error p

/-- `LogDisplayService::info` (src/lib.rs:176-178). -/
def info (p : String) : LogDisplayService :=
  new Level.Info p

/-- `LogDisplayService::trace` (src/lib.rs:182-184). -/
def trace (p : String) : LogDisplayService :=
  new Level.Trace p

/-- `LogDisplayService::warn` (src/lib.rs:188-190). -/
def warn (p : String) : LogDisplayService :=
  new Level.Warn p

/-- `Service<T> for LogDisplayService` (src/lib.rs:192-199):
`log::log!(self.level, "{}{}", self.prefix, input); Ok(input)`. -/
def process {T : Type} [RustDisplay T] (s : LogDisplayService) (input : T) :
    Except Unit T × List LogRecord :=
  (Except.ok input, [⟨s.level, s.pfx ++ RustDisplay.fmtDisplay input⟩])

end LogDisplayService

/-- `struct LogOptionalDisplayService` (src/lib.rs:204-207). -/
structure LogOptionalDisplayService : Type where
  level : Level
  pfx : String
deriving DecidableEq, Repr

namespace LogOptionalDisplayService

/-- `LogOptionalDisplayService::new` (src/lib.rs:213-218). -/
def new (level : Level) (p : String) : LogOptionalDisplayService :=
  { level := level, pfx := p }

/-- `LogOptionalDisplayService::debug` (src/lib.rs:222-224). -/
def debug (p : String) : LogOptionalDisplayService :=
  new Level.Debug p

/-- `LogOptionalDisplayService::error` (src/lib.rs:228-230). -/
def error (p : String) : LogOptionalDisplayService :=
  new Level.Error p

/-- `LogOptionalDisplayService::info` (src/lib.rs:234-236). -/
def info (p : String) : LogOptionalDisplayService :=
  new Level.Info p

/-- `LogOptionalDisplayService::trace` (src/lib.rs:240-242). -/
def trace (p : String) : LogOptionalDisplayService :=
  new Level.Trace p

/-- `LogOptionalDisplayService::warn` (src/lib.rs:246-248). -/
def warn (p : String) : LogOptionalDisplayService :=
  new Level.Warn p

/-- `Service<Option<T>> for LogOptionalDisplayService` (src/lib.rs:250-259):
logs only when the input is `Some`, then `Ok(input)`. -/
def process {T : Type} [RustDisplay T] (s : LogOptionalDisplayService)
    (input : Option T) : Except Unit (Option T) × List LogRecord :=
  match input with
  | some x => (Except.ok (some x), [⟨s.level, s.pfx ++ RustDisplay.fmtDisplay x⟩])
  | none => (Except.ok none, [])

end LogOptionalDisplayService

/-- `i32` also implements `Display`; `{}` on an integer prints its
decimal digits, identical to the `Debug` rendering for integers. -/
instance : RustDisplay Int := ⟨fun n => toString n⟩

/-- C1: for every non-optional input `x` and every configuration
`(level, p)`, `process` on `LogDebugService` and `LogDisplayService`
returns `Ok(x)` and emits exactly one record at `level` whose message is
`p` concatenated with the debug resp. display rendering of `x`. -/
theorem claim1_nonoptional_process_ok_one_record {T : Type}
    [RustDebug T] [RustDisplay T] (level : Level) (p : String) (x : T) :
    (LogDebugService.new level p).process x =
      (Except.ok x, [⟨level, p ++ RustDebug.fmtDebug x⟩]) ∧
    (LogDisplayService.new level p).process x =
      (Except.ok x, [⟨level, p ++ RustDisplay.fmtDisplay x⟩]) :=
  ⟨rfl, rfl⟩

/-- C2: for the optional variants and every configuration, `process none`
returns `Ok(None)` and emits no record, and `process (some x)` returns
`Ok(Some x)` and emits exactly one record at the configured level whose
message is the prefix concatenated with the rendering of `x`. -/
theorem claim2_optional_process_behavior {T : Type}
    [RustDebug T] [RustDisplay T] (level : Level) (p : String) (x : T) :
    (LogOptionalDebugService.new level p).process (none : Option T) =
      (Except.ok none, []) ∧
    (LogOptionalDebugService.new level p).process (some x) =
      (Except.ok (some x), [⟨level, p ++ RustDebug.fmtDebug x⟩]) ∧
    (LogOptionalDisplayService.new level p).process (none : Option T) =
      (Except.ok none, []) ∧
    (LogOptionalDisplayService.new level p).process (some x) =
      (Except.ok (some x), [⟨level, p ++ RustDisplay.fmtDisplay x⟩]) :=
  ⟨rfl, rfl, rfl, rfl⟩

/-- C3: on every input and every configuration, `process` on each of the
four adapters never takes the error channel: the returned result is
always `Ok` of the input. -/
theorem claim3_never_err {T : Type} [RustDebug T] [RustDisplay T]
    (a : LogDebugService) (b : LogDisplayService)
    (c : LogOptionalDebugService) (d : LogOptionalDisplayService)
    (x : T) (ox : Option T) :
    (a.process x).1 = Except.ok x ∧ (b.process x).1 = Except.ok x ∧
      (c.process ox).1 = Except.ok ox ∧ (d.process ox).1 = Except.ok ox := by
  refine ⟨rfl, rfl, ?_, ?_⟩ <;> cases ox <;> rfl

/-- C4: for every prefix `p` and each adapter type, the convenience
constructors agree with `new` at the corresponding level: `debug p`,
`info p`, `warn p`, `error p`, `trace p` equal `new` applied to
`Level.Debug`, `Level.Info`, `Level.Warn`, `Level.Error`, `Level.Trace`
respectively. -/
theorem claim4_convenience_constructors (p : String) :
    (LogDebugService.debug p = LogDebugService.new Level.Debug p ∧
      LogDebugService.info p = LogDebugService.new Level.Info p ∧
      LogDebugService.warn p = LogDebugService.new Level.Warn p ∧
      LogDebugService.error p = LogDebugService.new Level.Error p ∧
      LogDebugService.trace p = LogDebugService.new Level.Trace p) ∧
    (LogOptionalDebugService.debug p = LogOptionalDebugService.new Level.Debug p ∧
      LogOptionalDebugService.info p = LogOptionalDebugService.new Level.Info p ∧
      LogOptionalDebugService.warn p = LogOptionalDebugService.new Level.Warn p ∧
      LogOptionalDebugService.error p = LogOptionalDebugService.new Level.Error p ∧
      LogOptionalDebugService.trace p = LogOptionalDebugService.new Level.Trace p) ∧
    (LogDisplayService.debug p = LogDisplayService.new Level.Debug p ∧
      LogDisplayService.info p = LogDisplayService.new Level.Info p ∧
      LogDisplayService.warn p = LogDisplayService.new Level.Warn p ∧
      LogDisplayService.error p = LogDisplayService.new Level.Error p ∧
      LogDisplayService.trace p = LogDisplayService.new Level.Trace p) ∧
    (LogOptionalDisplayService.debug p = LogOptionalDisplayService.new Level.Debug p ∧
      LogOptionalDisplayService.info p = LogOptionalDisplayService.new Level.Info p ∧
      LogOptionalDisplayService.warn p = LogOptionalDisplayService.new Level.Warn p ∧
      LogOptionalDisplayService.error p = LogOptionalDisplayService.new Level.Error p ∧
      LogOptionalDisplayService.trace p = LogOptionalDisplayService.new Level.Trace p) :=
  ⟨⟨rfl, rfl, rfl, rfl, rfl⟩, ⟨rfl, rfl, rfl, rfl, rfl⟩,
    ⟨rfl, rfl, rfl, rfl, rfl⟩, ⟨rfl, rfl, rfl, rfl, rfl⟩⟩

/-- C5: `process` is a pure function of the immutable configuration and
the input (the Rust method takes `&self` and touches no other state):
for each variant, two adapters with equal `(severity, prefix)`
configuration produce equal results and equal emitted records on equal
input. -/
theorem claim5_deterministic_stateless {T : Type} [RustDebug T] [RustDisplay T]
    (a1 a2 : LogDebugService) (b1 b2 : LogDisplayService)
    (c1 c2 : LogOptionalDebugService) (d1 d2 : LogOptionalDisplayService)
    (x : T) (ox : Option T)
    (ha1 : a1.level = a2.level) (ha2 : a1.pfx = a2.pfx)
    (hb1 : b1.level = b2.level) (hb2 : b1.pfx = b2.pfx)
    (hc1 : c1.level = c2.level) (hc2 : c1.pfx = c2.pfx)
    (hd1 : d1.level = d2.level) (hd2 : d1.pfx = d2.pfx) :
    a1.process x = a2.process x ∧ b1.process x = b2.process x ∧
      c1.process ox = c2.process ox ∧ d1.process ox = d2.process ox := by
  refine ⟨?_, ?_, ?_, ?_⟩
  · unfold LogDebugService.process
    rw [ha1, ha2]
  · unfold LogDisplayService.process
    rw [hb1, hb2]
  · cases ox <;> simp [LogOptionalDebugService.process, hc1, hc2]
  · cases ox <;> simp [LogOptionalDisplayService.process, hd1, hd2]

/-- Witness for C5 at concrete adapters: `info "p"` and `new Level.Info "p"`
have equal configuration, and `process` agrees on the inputs `3` and
`some 3`. -/
theorem claim5_deterministic_stateless_witness :
    (LogDebugService.info "p").process (3 : Int) =
      (LogDebugService.new Level.Info "p").process (3 : Int) ∧
    (LogDisplayService.info "p").process (3 : Int) =
      (LogDisplayService.new Level.Info "p").process (3 : Int) ∧
    (LogOptionalDebugService.info "p").process (some (3 : Int)) =
      (LogOptionalDebugService.new Level.Info "p").process (some (3 : Int)) ∧
    (LogOptionalDisplayService.info "p").process (some (3 : Int)) =
      (LogOptionalDisplayService.new Level.Info "p").process (some (3 : Int)) :=
  claim5_deterministic_stateless _ _ _ _ _ _ _ _ (3 : Int) (some (3 : Int))
    rfl rfl rfl rfl rfl rfl rfl rfl

/-- C6: `LogDisplayService::info("my event: ")` applied to
`"hello world!"` emits one info-level record with message
`"my event: hello world!"` and returns `Ok("hello world!")`. -/
theorem claim6_display_info_scenario :
    (LogDisplayService.info "my event: ").process "hello world!" =
      (Except.ok "hello world!",
        [⟨Level.Info, "my event: hello world!"⟩]) :=
  rfl

/-- C7: `LogOptionalDebugService::warn("saw: ")` applied to `Some(42)`
emits one warn-level record with message `"saw: 42"` and returns
`Ok(Some(42))`; applied to `None` it emits nothing and returns
`Ok(None)`. -/
theorem claim7_optional_debug_warn_scenario :
    (LogOptionalDebugService.warn "saw: ").process (some (42 : Int)) =
      (Except.ok (some 42), [⟨Level.Warn, "saw: 42"⟩]) ∧
    (LogOptionalDebugService.warn "saw: ").process (none : Option Int) =
      (Except.ok none, []) :=
  ⟨rfl, rfl⟩

/-- C8: an adapter built by `new` with error severity and the empty
prefix, processing the value `7`, emits a record whose message is
exactly the rendering of `7` (namely `"7"`) with no leading text. -/
theorem claim8_empty_prefix_scenario :
    (LogDebugService.new Level.Error "").process (7 : Int) =
      (Except.ok 7, [⟨Level.Error, RustDebug.fmtDebug (7 : Int)⟩]) ∧
    RustDebug.fmtDebug (7 : Int) = "7" :=
  ⟨rfl, rfl⟩

/-- C9: for every configuration and value `x`, the optional variants on
`some x` emit exactly the record (same severity, same message) that the
corresponding non-optional variants emit on `x`. -/
theorem claim9_optional_refines_nonoptional {T : Type}
    [RustDebug T] [RustDisplay T] (level : Level) (p : String) (x : T) :
    ((LogOptionalDebugService.new level p).process (some x)).2 =
      ((LogDebugService.new level p).process x).2 ∧
    ((LogOptionalDisplayService.new level p).process (some x)).2 =
      ((LogDisplayService.new level p).process x).2 :=
  ⟨rfl, rfl⟩

/-- C10: `new level p` on each adapter type stores the level and the
prefix text verbatim: the configured severity equals `level` and the
stored prefix equals `p` exactly, for every `level` and `p` including
the empty string. -/
theorem claim10_new_stores_config_verbatim (level : Level) (p : String) :
    ((LogDebugService.new level p).level = level ∧
      (LogDebugService.new level p).pfx = p) ∧
    ((LogOptionalDebugService.new level p).level = level ∧
      (LogOptionalDebugService.new level p).pfx = p) ∧
    ((LogDisplayService.new level p).level = level ∧
      (LogDisplayService.new level p).pfx = p) ∧
    ((LogOptionalDisplayService.new level p).level = level ∧
      (LogOptionalDisplayService.new level p).pfx = p) :=
  ⟨⟨rfl, rfl⟩, ⟨rfl, rfl⟩, ⟨rfl, rfl⟩, ⟨rfl, rfl⟩⟩
